import Mathlib

/-!
Verification development for the OpenCore-Simplify GUI build and
recommendation core.  The Python source is shallowly embedded: each
relevant method becomes an executable Lean definition over explicit
data, and the spec's claims are settled as theorems about those
definitions.

External `Scripts.*` modules (acpi_guru, kext_maestro, smbios) are not
part of this repository; their import fails at module load, so the
`except` fallback branches (the "simulation" recommendation and
generation paths) are the code paths actually executed.  Those branches
are what we embed.
-/

namespace OpCoreGUI

/-- Python substring prefix test: `isPref n h` iff the char list `n` is a
prefix of `h`. -/
def isPref : List Char → List Char → Bool
  | [], _ => true
  | _ :: _, [] => false
  | a :: as, b :: bs => a == b && isPref as bs

/-- Python `needle in hay` substring containment on char lists. -/
def subIn (n : List Char) : List Char → Bool
  | [] => isPref n []
  | h :: t => isPref n (h :: t) || subIn n t

/-- Python `needle in hay` on strings. -/
def strContains (needle hay : String) : Bool :=
  subIn needle.data hay.data

/-- Python `str.lower` on an ASCII character. -/
def lowerChar (c : Char) : Char :=
  if 'A' ≤ c ∧ c ≤ 'Z' then Char.ofNat (c.toNat + 32) else c

/-- Python `str.lower` on a string. -/
def lowerStr (s : String) : String :=
  ⟨s.data.map lowerChar⟩

/-- Normalized view of the `hardware_info` dictionary, restricted to the
keys the recommendation code reads: `hardware_info["cpu"]["model"]` (when
both keys are present), `hardware_info["gpu"]["model"]`, and the
top-level `hardware_info["model"]` string. -/
structure HardwareInfo where
  cpuModel : Option String
  gpuModel : Option String
  model : Option String
deriving DecidableEq, Repr

/-- The basic patches always extended onto the recommendation in
`ACPIConfigPage.auto_detect_patches` (both the with-hardware simulation
branch and the no-hardware default branch). -/
def basePatches : List String :=
  ["FixHPET", "FixRTC", "SSDT-PLUG", "SSDT-EC-USBX"]

/-- Laptop test of `auto_detect_patches`: the literal source condition
`"Laptop" in hardware_info.get("model", "") or
"Notebook" in hardware_info.get("model", "").lower()`. -/
def laptopCond (h : HardwareInfo) : Bool :=
  strContains "Laptop" (h.model.getD "") ||
    strContains "Notebook" (lowerStr (h.model.getD ""))

/-- Newer-chipset keywords checked by `auto_detect_patches` against the
lowercased top-level model string. -/
def awacKeywords : List String :=
  ["z390", "z490", "z590", "z690", "b360", "b460", "b560", "b660"]

/-- Motherboard test of `auto_detect_patches`: only runs when the
top-level `"model"` key is present. -/
def awacCond (h : HardwareInfo) : Bool :=
  match h.model with
  | some m => awacKeywords.any (fun x => strContains x (lowerStr m))
  | none => false

/-- Body of `ACPIConfigPage.auto_detect_patches` producing the
`recommended_patches` list, before deduplication.  The argument is
`none` when `hardware_info` is absent or empty (Python falsy), `some h`
otherwise.  The original `acpi_guru` call always raises (the module is
missing), so the simulation branch runs. -/
def recommendPatchesRaw : Option HardwareInfo → List String
  | none => basePatches
  | some h =>
    let r0 := basePatches
    let r1 := if laptopCond h then r0 ++ ["SSDT-PNLF"] else r0
    if awacCond h then r1 ++ ["SSDT-AWAC"] else r1

/-- The `recommended_patches` list after `list(set(...))` deduplication.
Python's set ordering is unspecified, so all claims about this value are
stated via membership, which deduplication preserves. -/
def recommendPatches (hw : Option HardwareInfo) : List String :=
  (recommendPatchesRaw hw).dedup

/-- Body of `KextConfigPage.auto_select_kexts` producing
`recommended_kexts`: the fixed four-kext baseline, both in the default
branch (no hardware info) and in the simulation fallback branch (the
`kext_maestro` call always raises). -/
def recommendKexts : Option HardwareInfo → List String
  | none => ["Lilu.kext", "VirtualSMC.kext", "WhateverGreen.kext", "AppleALC.kext"]
  | some _ => ["Lilu.kext", "VirtualSMC.kext", "WhateverGreen.kext", "AppleALC.kext"]

/-- GPU bucket labels for the branches of the elif chain in
`MacOSVersionPage.check_compatibility`: full Intel iGPU support, AMD
native support, NVIDIA capped support, or no keyword match. -/
inductive GpuBucket
  | nativeFull
  | native
  | capped
  | unknown
deriving DecidableEq, Repr

/-- First keyword bucket checked: Intel iGPU names. -/
def intelKeywords : List String := ["Intel Iris", "Intel UHD", "Intel HD"]

/-- Second keyword bucket checked: AMD GPU names. -/
def amdKeywords : List String := ["AMD", "Radeon"]

/-- Third keyword bucket checked: NVIDIA GPU names. -/
def nvidiaKeywords : List String := ["NVIDIA", "GTX", "RTX"]

/-- Python `any(x in gpu_model for x in kws)`. -/
def anyKeyword (kws : List String) (m : String) : Bool :=
  kws.any (fun x => strContains x m)

/-- GPU branch of `MacOSVersionPage.check_compatibility`: the elif chain
over the three keyword buckets, first match winning, in the source
order Intel, AMD, NVIDIA. -/
def classifyGpu (m : String) : GpuBucket :=
  if anyKeyword intelKeywords m then .nativeFull
  else if anyKeyword amdKeywords m then .native
  else if anyKeyword nvidiaKeywords m then .capped
  else .unknown

/-- Uppercase alphanumeric alphabet used by the simulated serial
generator: `string.ascii_uppercase + string.digits`. -/
def serialAlphabet : List Char :=
  "ABCDEFGHIJKLMNOPQRSTUVWXYZ0123456789".data

/-- One `random.choice(chars)` draw, with the injected randomness stream
`g` consumed at position `i`. -/
def pickChar (g : Nat → Nat) (i : Nat) : Char :=
  serialAlphabet.get ⟨g i % serialAlphabet.length, Nat.mod_lt _ (by decide)⟩

/-- `random_str(length)` from `SMBIOSConfigPage.generate_new_serial`,
drawing `len` characters starting at stream position `off`. -/
def randomStr (g : Nat → Nat) (off len : Nat) : List Char :=
  (List.range len).map (fun i => pickChar g (off + i))

/-- The generated identity record: the four fields produced by the
simulation branch of `generate_new_serial`, as character lists. -/
structure IdentityRecord where
  serial : List Char
  uuid : List Char
  board : List Char
  mlb : List Char
deriving DecidableEq, Repr

/-- Simulation branch of `SMBIOSConfigPage.generate_new_serial` (the
original `smbios` module is missing, so this branch always runs):
`new_serial = "C" + random_str(11)`, the uuid from five hyphen-joined
groups of 8, 4, 4, 4, 12 random characters, `new_board = "C" +
random_str(11)`, `new_mlb = random_str(20)`.  The global RNG is embedded
as the injected stream `g`, consumed left to right. -/
def generateNewSerial (g : Nat → Nat) : IdentityRecord where
  serial := 'C' :: randomStr g 0 11
  uuid := randomStr g 11 8 ++ '-' :: randomStr g 19 4 ++ '-' :: randomStr g 23 4
    ++ '-' :: randomStr g 27 4 ++ '-' :: randomStr g 31 12
  board := 'C' :: randomStr g 43 11
  mlb := randomStr g 54 20

/-- Signals emitted by `BuildThread`: `log.emit(s)`,
`progress.emit(pct, status)` and `finished.emit(ok, msg)`. -/
inductive Event
  | log (s : String)
  | progress (pct : Nat) (status : String)
  | finished (ok : Bool) (msg : String)
deriving DecidableEq, Repr

/-- The try-block of `BuildThread.run`, transcribed emission by
emission: the 17 signal emissions of an error-free run, in source
order.  `msleep` calls emit nothing and are dropped. -/
def tryBody : List Event :=
  [.log "Starting OpenCore EFI build...",
   .progress 10 "Initializing build environment",
   .log "Validating hardware report and configuration...",
   .progress 20 "Validating configuration",
   .log "Applying ACPI patches...",
   .progress 35 "Applying ACPI patches",
   .log "Configuring and copying Kext drivers...",
   .progress 50 "Configuring Kext drivers",
   .log "Generating SMBIOS information...",
   .progress 65 "Generating SMBIOS information",
   .log "Generating config.plist configuration file...",
   .progress 80 "Generating configuration file",
   .log "Packaging EFI folder...",
   .progress 90 "Packaging EFI",
   .progress 100 "Build completed",
   .log "OpenCore EFI build completed!",
   .finished true "EFI build successfully completed"]

/-- `BuildThread.run` with an injected failure point: `none` is the
error-free run; `some (k, s)` raises an exception with message `s` just
before the `k`-th emission of the try-block, after which the `except`
handler emits the error log line and the failure notification.  No code
follows the final emission inside the try-block, so a failure can only
strike before one of the 17 emissions. -/
def buildRun : Option (Fin 17 × String) → List Event
  | none => tryBody
  | some (k, s) =>
    tryBody.take k.val ++
      [.log ("Error: " ++ s), .finished false ("Build failed: " ++ s)]

/-- The progress events of a trace, in emission order. -/
def progressEvents (l : List Event) : List (Nat × String) :=
  l.filterMap fun e =>
    match e with
    | .progress p s => some (p, s)
    | _ => none

/-- The finished notifications of a trace, in emission order. -/
def finishedEvents (l : List Event) : List (Bool × String) :=
  l.filterMap fun e =>
    match e with
    | .finished b m => some (b, m)
    | _ => none

/-- The spec's names for the eight non-terminal pipeline stages. -/
inductive Stage
  | initializing
  | validatingConfig
  | applyingPatches
  | configuringModules
  | generatingIdentity
  | generatingConfigFile
  | packagingArtifact
  | completed
deriving DecidableEq, Repr

/-- The fixed stage order required by the spec. -/
def stageOrder : List Stage :=
  [.initializing, .validatingConfig, .applyingPatches, .configuringModules,
   .generatingIdentity, .generatingConfigFile, .packagingArtifact, .completed]

/-- The status string `BuildThread.run` emits on entry to each stage. -/
def stageStatus : Stage → String
  | .initializing => "Initializing build environment"
  | .validatingConfig => "Validating configuration"
  | .applyingPatches => "Applying ACPI patches"
  | .configuringModules => "Configuring Kext drivers"
  | .generatingIdentity => "Generating SMBIOS information"
  | .generatingConfigFile => "Generating configuration file"
  | .packagingArtifact => "Packaging EFI"
  | .completed => "Build completed"

/-- The fixed percent checkpoint emitted on entry to each stage. -/
def stagePercent : Stage → Nat
  | .initializing => 10
  | .validatingConfig => 20
  | .applyingPatches => 35
  | .configuringModules => 50
  | .generatingIdentity => 65
  | .generatingConfigFile => 80
  | .packagingArtifact => 90
  | .completed => 100

/-- The spec's terminal outcomes for a pipeline run. -/
inductive Outcome
  | success
  | failed
  | cancelled
deriving DecidableEq, Repr

/-- The terminal outcome a trace notifies: the payload of its first
finished notification, mapped onto the spec's outcome vocabulary.  The
`finished` signal of `BuildThread` carries only a success flag, so only
`success` and `failed` can ever be produced. -/
def specOutcome (l : List Event) : Option Outcome :=
  match finishedEvents l with
  | [] => none
  | (b, _) :: _ => some (if b then .success else .failed)

/-- `BuildPage.cancel_build` calls `build_thread.terminate()` followed
by `wait()`: the worker is killed preemptively, so the observable trace
of a run cancelled after `k` emissions is the `k`-event prefix of the
error-free trace, with nothing emitted afterwards.  `BuildThread.run`
holds no cancellation flag and checks none. -/
def terminateAt (k : Nat) : List Event :=
  tryBody.take k

/-- The three patches the auto-detect UI update never force-disables
(source comment: "Keep some basic patches"). -/
def basicPatches : List String :=
  ["FixHPET", "FixRTC", "SSDT-PLUG"]

/-- Loop body of the UI update in `auto_detect_patches`: a patch on the
recommendation list is checked; otherwise a patch outside the protected
basic set is unchecked; a protected patch keeps its previous state. -/
def updateItem (rec : List String) (n : String) (e : Bool) : Bool :=
  if n ∈ rec then true
  else if n ∉ basicPatches then false
  else e

/-- The whole UI update loop of `auto_detect_patches` over the ordered
patch list, each entry being (patch name, checked state). -/
def autoDetectUpdate (rec : List String) (st : List (String × Bool)) :
    List (String × Bool) :=
  st.map fun p => (p.1, updateItem rec p.1 p.2)

/-- The initial `patches_data` catalog of `ACPIConfigPage`, with each
patch's initial enabled state. -/
def patchesData : List (String × Bool) :=
  [("FixHPET", true), ("FixRTC", true), ("SSDT-PLUG", true),
   ("SSDT-AWAC", false), ("SSDT-PNLF", false), ("SSDT-EC-USBX", true),
   ("SSDT-AWAC-DISABLE", false), ("SSDT-USBX", false)]

end OpCoreGUI

namespace OpCoreGUI

/-- Every character drawn by `randomStr` comes from the fixed uppercase
alphanumeric alphabet. -/
theorem randomStr_mem_alphabet (g : Nat → Nat) (off len : Nat) :
    ∀ c ∈ randomStr g off len, c ∈ serialAlphabet := by
  intro c hc
  simp only [randomStr, List.mem_map] at hc
  obtain ⟨i, _, rfl⟩ := hc
  exact List.get_mem _ _ _

/-- `randomStr` produces exactly the requested number of characters. -/
theorem randomStr_length (g : Nat → Nat) (off len : Nat) :
    (randomStr g off len).length = len := by
  simp [randomStr]

/-- C3: baseline patches FixHPET, FixRTC, SSDT-PLUG are present in the
patch recommendation for every hardware descriptor, including an absent
or empty one. -/
theorem baseline_patches_always_present (hw : Option HardwareInfo) :
    "FixHPET" ∈ recommendPatches hw ∧ "FixRTC" ∈ recommendPatches hw ∧
      "SSDT-PLUG" ∈ recommendPatches hw := by
  refine ⟨?_, ?_, ?_⟩ <;>
  · cases hw with
    | none => decide
    | some h =>
      simp only [recommendPatches, recommendPatchesRaw, List.mem_dedup]
      split <;> split <;> simp [basePatches]

/-- C4 counterexample: for the empty hardware descriptor (no sections at
all), `auto_detect_patches` does not fail; it silently returns the
generic default patch set. -/
theorem empty_descriptor_returns_default :
    recommendPatches none = ["FixHPET", "FixRTC", "SSDT-PLUG", "SSDT-EC-USBX"] := by
  decide

/-- C4 amended: recommendation for a descriptor with no sections (absent
or an all-empty record) succeeds with exactly the generic default set
FixHPET, FixRTC, SSDT-PLUG, SSDT-EC-USBX; no insufficient-data failure
exists in the code. -/
theorem empty_descriptor_default_set (p : String) :
    (p ∈ recommendPatches none ↔ p ∈ basePatches) ∧
      (p ∈ recommendPatches (some ⟨none, none, none⟩) ↔ p ∈ basePatches) := by
  constructor
  · simp [recommendPatches, recommendPatchesRaw, List.mem_dedup]
  · simp [recommendPatches, recommendPatchesRaw, List.mem_dedup, laptopCond,
      awacCond, strContains, lowerStr, subIn, isPref]

/-- C4 amended witness at the concrete patch name FixHPET. -/
theorem empty_descriptor_default_set_witness :
    ("FixHPET" ∈ recommendPatches none ↔ "FixHPET" ∈ basePatches) ∧
      ("FixHPET" ∈ recommendPatches (some ⟨none, none, none⟩) ↔
        "FixHPET" ∈ basePatches) :=
  empty_descriptor_default_set "FixHPET"

/-- C5: with no hardware descriptor supplied, the kext recommender
succeeds and returns exactly the four core kexts. -/
theorem kext_baseline_without_hardware :
    recommendKexts none =
      ["Lilu.kext", "VirtualSMC.kext", "WhateverGreen.kext", "AppleALC.kext"] := by
  rfl

/-- C6: for the chassis attribute value "laptop" the code does NOT add
SSDT-PNLF (the `"Laptop"` test is case-sensitive and the `"Notebook"`
literal can never occur in a lowercased string), while the capitalized
value "Laptop" does get it — the lowercase keyword match required by the
spec is broken in the code. -/
theorem laptop_lowercase_misses_pnlf :
    "SSDT-PNLF" ∉ recommendPatches (some ⟨none, none, some "laptop"⟩) ∧
      "SSDT-PNLF" ∈ recommendPatches (some ⟨none, none, some "Laptop"⟩) := by
  decide

/-- C7: the GPU verdict is decided by substring matching against the
three keyword buckets in the fixed order Intel-full, AMD-native,
NVIDIA-capped, first match winning: a model containing "Radeon" with no
Intel keyword lands in the native bucket, and a model containing both an
Intel keyword and "Radeon" lands in the native-full bucket. -/
theorem gpu_bucket_order (m : String) :
    (strContains "Radeon" m = true → anyKeyword intelKeywords m = false →
      classifyGpu m = .native) ∧
    (anyKeyword intelKeywords m = true → strContains "Radeon" m = true →
      classifyGpu m = .nativeFull) := by
  constructor
  · intro hr hi
    have hamd : anyKeyword amdKeywords m = true := by
      simp [anyKeyword, amdKeywords, hr]
    simp [classifyGpu, hi, hamd]
  · intro hi _
    simp [classifyGpu, hi]

/-- C7 witness: the spec's end-to-end GPU model lands in the native
bucket, and a model with both an Intel keyword and "Radeon" lands in the
native-full bucket. -/
theorem gpu_bucket_order_witness :
    classifyGpu "VendorY Radeon RX 5700" = .native ∧
      classifyGpu "Intel Iris Radeon" = .nativeFull :=
  ⟨(gpu_bucket_order "VendorY Radeon RX 5700").1 (by decide) (by decide),
    (gpu_bucket_order "Intel Iris Radeon").2 (by decide) (by decide)⟩

/-- C8: for every randomness stream, the generated identity record has a
12-character primary serial, 12-character board serial, 20-character
MLB, a uuid in canonical 8-4-4-4-12 hyphenated grouping, and every token
character drawn from the uppercase alphanumeric alphabet. -/
theorem identity_record_shape (g : Nat → Nat) :
    (generateNewSerial g).serial.length = 12 ∧
    (generateNewSerial g).board.length = 12 ∧
    (generateNewSerial g).mlb.length = 20 ∧
    (∀ c ∈ (generateNewSerial g).serial, c ∈ serialAlphabet) ∧
    (∀ c ∈ (generateNewSerial g).board, c ∈ serialAlphabet) ∧
    (∀ c ∈ (generateNewSerial g).mlb, c ∈ serialAlphabet) ∧
    ∃ a b c d e : List Char,
      (generateNewSerial g).uuid =
        a ++ '-' :: b ++ '-' :: c ++ '-' :: d ++ '-' :: e ∧
      a.length = 8 ∧ b.length = 4 ∧ c.length = 4 ∧ d.length = 4 ∧
      e.length = 12 ∧
      (∀ ch, (ch ∈ a ∨ ch ∈ b ∨ ch ∈ c ∨ ch ∈ d ∨ ch ∈ e) →
        ch ∈ serialAlphabet) := by
  refine ⟨?_, ?_, ?_, ?_, ?_, ?_, ?_⟩
  · simp [generateNewSerial, randomStr_length]
  · simp [generateNewSerial, randomStr_length]
  · simp [generateNewSerial, randomStr_length]
  · intro c hc
    simp only [generateNewSerial, List.mem_cons] at hc
    rcases hc with rfl | hc
    · decide
    · exact randomStr_mem_alphabet g 0 11 c hc
  · intro c hc
    simp only [generateNewSerial, List.mem_cons] at hc
    rcases hc with rfl | hc
    · decide
    · exact randomStr_mem_alphabet g 43 11 c hc
  · exact randomStr_mem_alphabet g 54 20
  · refine ⟨randomStr g 11 8, randomStr g 19 4, randomStr g 23 4,
      randomStr g 27 4, randomStr g 31 12, rfl,
      randomStr_length g 11 8, randomStr_length g 19 4,
      randomStr_length g 23 4, randomStr_length g 27 4,
      randomStr_length g 31 12, ?_⟩
    intro ch hch
    rcases hch with h | h | h | h | h
    · exact randomStr_mem_alphabet g 11 8 ch h
    · exact randomStr_mem_alphabet g 19 4 ch h
    · exact randomStr_mem_alphabet g 23 4 ch h
    · exact randomStr_mem_alphabet g 27 4 ch h
    · exact randomStr_mem_alphabet g 31 12 ch h

/-- C8 witness at the identity randomness stream: concrete field length
and a concrete character membership. -/
theorem identity_record_shape_witness :
    (generateNewSerial (fun n => n)).serial.length = 12 ∧
      'C' ∈ serialAlphabet :=
  ⟨(identity_record_shape (fun n => n)).1,
    (identity_record_shape (fun n => n)).2.2.2.1 'C' (by decide)⟩

/-- A prefix of the try-block that stops at or before the 16th emission
contains no finished notification: the only one is the very last
emission. -/
theorem finishedEvents_take_prefix (k : Nat) (h : k ≤ 16) :
    finishedEvents (tryBody.take k) = [] := by
  have h1 : tryBody.take k = (tryBody.take 16).take k := by
    rw [List.take_take, Nat.min_eq_left h]
  have h2 : (finishedEvents ((tryBody.take 16).take k)).Sublist
      (finishedEvents (tryBody.take 16)) :=
    (List.take_sublist _ _).filterMap _
  have h3 : finishedEvents (tryBody.take 16) = [] := by decide
  rw [h1]
  rw [h3] at h2
  exact List.sublist_nil.mp h2

/-- C1: the error-free build run emits its stage-entry progress events
exactly once each, in the fixed spec order, with percents exactly
10, 20, 35, 50, 65, 80, 90, 100 (non-decreasing), and terminates with
the success notification. -/
theorem build_run_stage_sequence :
    progressEvents (buildRun none) =
      stageOrder.map (fun s => (stagePercent s, stageStatus s)) ∧
    (progressEvents (buildRun none)).map Prod.fst =
      [10, 20, 35, 50, 65, 80, 90, 100] ∧
    List.Chain' (· ≤ ·) ((progressEvents (buildRun none)).map Prod.fst) ∧
    (stageOrder.map stageStatus).Nodup ∧
    (buildRun none).getLast? =
      some (.finished true "EFI build successfully completed") ∧
    specOutcome (buildRun none) = some .success := by
  refine ⟨by decide, by decide, ?_, by decide, by decide, by decide⟩
  have h : (progressEvents (buildRun none)).map Prod.fst =
      [10, 20, 35, 50, 65, 80, 90, 100] := by decide
  rw [h]
  norm_num [List.chain'_cons]

/-- C2 counterexample: a run cancelled after 4 emissions — before the
ApplyingPatches stage begins — does not terminate in the Cancelled
outcome: the kill leaves no finished notification at all, so no
Cancelled outcome is ever observed. -/
theorem cancel_no_cancelled_outcome :
    specOutcome (terminateAt 4) ≠ some Outcome.cancelled ∧
      finishedEvents (terminateAt 4) = [] := by
  decide

/-- C2 amended: a run whose thread is terminated before the
ApplyingPatches stage-entry emission never emits a finished
notification, a Completed (100 percent) event, or the ApplyingPatches
event afterwards, and notifies no terminal outcome at all — cancellation
is preemptive thread termination, with no cooperative flag checked
anywhere in the worker. -/
theorem cancel_before_patches_silent (k : Nat) (h : k ≤ 5) :
    finishedEvents (terminateAt k) = [] ∧
    Event.progress 100 "Build completed" ∉ terminateAt k ∧
    Event.progress 35 "Applying ACPI patches" ∉ terminateAt k ∧
    specOutcome (terminateAt k) = none := by
  have hfin : finishedEvents (terminateAt k) = [] :=
    finishedEvents_take_prefix k (Nat.le_trans h (by decide))
  have hsub : (terminateAt k).Sublist (terminateAt 5) := by
    unfold terminateAt
    rw [show tryBody.take k = (tryBody.take 5).take k by
      rw [List.take_take, Nat.min_eq_left h]]
    exact List.take_sublist _ _
  refine ⟨hfin, ?_, ?_, ?_⟩
  · intro hmem
    exact absurd (hsub.subset hmem) (by decide)
  · intro hmem
    exact absurd (hsub.subset hmem) (by decide)
  · simp [specOutcome, hfin]

/-- C2 amended witness at the concrete truncation point 3. -/
theorem cancel_before_patches_silent_witness :
    finishedEvents (terminateAt 3) = [] ∧
    Event.progress 100 "Build completed" ∉ terminateAt 3 ∧
    Event.progress 35 "Applying ACPI patches" ∉ terminateAt 3 ∧
    specOutcome (terminateAt 3) = none :=
  cancel_before_patches_silent 3 (by decide)

/-- C10: every execution of the build worker emits exactly one finished
notification; the error-free run ends with the success notification
after the 100-percent event, and a run failing with message s ends with
the failure notification carrying "Build failed: s" — the exception is
caught, never propagated. -/
theorem build_worker_single_finish (f : Option (Fin 17 × String)) :
    (finishedEvents (buildRun f)).length = 1 ∧
    (f = none →
      finishedEvents (buildRun f) =
        [(true, "EFI build successfully completed")] ∧
      (buildRun f).getLast? =
        some (.finished true "EFI build successfully completed") ∧
      (buildRun f)[14]? = some (.progress 100 "Build completed")) ∧
    (∀ k s, f = some (k, s) →
      finishedEvents (buildRun f) = [(false, "Build failed: " ++ s)] ∧
      (buildRun f).getLast? =
        some (.finished false ("Build failed: " ++ s))) := by
  cases f with
  | none =>
    refine ⟨by decide, fun _ => ⟨by decide, by decide, by decide⟩, ?_⟩
    intro k s h
    exact absurd h (by simp)
  | some p =>
    obtain ⟨k, s⟩ := p
    have hfin : finishedEvents (tryBody.take k.val) = [] :=
      finishedEvents_take_prefix k.val (Nat.lt_succ_iff.mp k.isLt)
    have happ : finishedEvents (buildRun (some (k, s))) =
        [(false, "Build failed: " ++ s)] := by
      simp only [buildRun, finishedEvents, List.filterMap_append]
      rw [show (tryBody.take k.val).filterMap _ = [] from hfin]
      rfl
    refine ⟨by rw [happ]; rfl, ?_, ?_⟩
    · intro h
      exact absurd h (by simp)
    · intro k' s' h
      obtain ⟨rfl, rfl⟩ : k' = k ∧ s' = s := by
        constructor <;> { injection h with h2; injection h2 with ha hb
                          first | exact ha.symm | exact hb.symm }
      refine ⟨happ, ?_⟩
      simp [buildRun]

/-- C10 witness at a concrete injected failure before the 4th emission. -/
theorem build_worker_single_finish_witness :
    finishedEvents (buildRun (some (⟨3, by decide⟩, "disk full"))) =
      [(false, "Build failed: " ++ "disk full")] :=
  ((build_worker_single_finish (some (⟨3, by decide⟩, "disk full"))).2.2
    ⟨3, by decide⟩ "disk full" rfl).1

/-- C9: after the auto-detect UI update, every patch on the
recommendation list is enabled; every patch neither recommended nor in
the protected basic set is disabled regardless of its previous state;
and a protected patch that was enabled stays enabled. -/
theorem auto_detect_overrides (rec : List String)
    (st : List (String × Bool)) (i : Nat) (n : String) (e : Bool)
    (h : st[i]? = some (n, e)) :
    (autoDetectUpdate rec st)[i]? = some (n, updateItem rec n e) ∧
    (n ∈ rec → updateItem rec n e = true) ∧
    (n ∉ rec → n ∉ basicPatches → updateItem rec n e = false) ∧
    (n ∈ basicPatches → e = true → updateItem rec n e = true) := by
  refine ⟨?_, ?_, ?_, ?_⟩
  · rw [autoDetectUpdate, List.getElem?_map, h]
    rfl
  · intro hr
    simp [updateItem, hr]
  · intro hr hb
    simp [updateItem, hr, hb]
  · intro hb he
    by_cases hr : n ∈ rec <;> simp [updateItem, hr, hb, he]

/-- C9 witness on the initial patch catalog: FixHPET (protected,
recommended, initially enabled) at index 0 with the baseline
recommendation list. -/
theorem auto_detect_overrides_witness :
    (autoDetectUpdate basePatches patchesData)[0]? =
      some ("FixHPET", updateItem basePatches "FixHPET" true) ∧
    updateItem basePatches "FixHPET" true = true :=
  ⟨(auto_detect_overrides basePatches patchesData 0 "FixHPET" true rfl).1,
    (auto_detect_overrides basePatches patchesData 0 "FixHPET" true rfl).2.1
      (by decide)⟩

end OpCoreGUI
